import Mathlib

/- Verification of the iceditor application (src/main.rs): a shallow
embedding of its Elm-style state machine (the Message enum, the Editor
state struct, and the update / view / subscription functions), together
with a model of the text-editing core (buffer, cursor, edit-action log)
that the application delegates to its GUI toolkit, as laid out in the
accompanying design document. -/

namespace Iceditor

/-- A filesystem path, modelling Rust's PathBuf by its string form. -/
abbrev Path := String

/-! ## Text-buffer primitives -/

/-- Insert the characters `t` at character offset `p` of `s`
(offsets beyond the end clamp to the end). -/
def insertAt (p : Nat) (t s : List Char) : List Char :=
  s.take p ++ t ++ s.drop p

/-- Remove the characters of `s` lying in the offset range `[p, q)`. -/
def deleteRange (p q : Nat) (s : List Char) : List Char :=
  s.take p ++ s.drop q

/-- The characters of `s` in the offset range `[p, q)`. -/
def sliceRange (p q : Nat) (s : List Char) : List Char :=
  (s.drop p).take (q - p)

/-! ## The edit-action log -/

/-- Modelled from the spec: one recorded operation of the Edit Action Log
(design document section 3, `EditOp`), stored with enough information to
invert it — the inserted text for an insertion, the removed text cached for
a deletion. Positions are stored as resolved character offsets (the spec's
(line, column) `Position` resolves to an offset through the Line Index). -/
inductive EditOp where
  | ins (p : Nat) (t : List Char)
  | del (p : Nat) (t : List Char)
  deriving DecidableEq, Repr

/-- The inverse of a recorded edit, applied to document text (design
document 4.4: undo applies the inverse of the most recent op). -/
def EditOp.invert : EditOp → List Char → List Char
  | .ins p t, s => deleteRange p (p + t.length) s
  | .del p t, s => insertAt p t s

/-! ## Actions of the text-editing widget -/

/-- Modelled from the spec: cursor navigation commands (design document
4.3), carried by the non-editing actions of the toolkit widget; they move
the cursor and never touch the text. Representative motions only. -/
inductive Motion where
  | left
  | right
  | docStart
  | docEnd
  deriving DecidableEq, Repr

/-- Modelled from the spec: the content-mutating commands of the toolkit
widget (insert a character, paste text, newline, backspace, forward
delete). -/
inductive EditCmd where
  | insert (ch : Char)
  | paste (t : List Char)
  | enter
  | backspace
  | delete
  deriving DecidableEq, Repr

/-- Modelled from the spec and iced's `text_editor::Action`: a cursor
motion, a selecting motion, or a content edit. Selection extents are
elided (no verified claim depends on them); a Select action moves the
cursor like the corresponding Move. -/
inductive Action where
  | move (m : Motion)
  | select (m : Motion)
  | edit (e : EditCmd)
  deriving DecidableEq, Repr

/-- Faithful to iced's `Action::is_edit`: true exactly for the
content-mutating actions. -/
def Action.is_edit : Action → Bool
  | .edit _ => true
  | _ => false

/-! ## The widget-owned buffer state -/

/-- Model of iced's `text_editor::Content` — the widget-owned buffer state
the editor delegates to — extended per the spec's Editor Session data
model (design document section 3): document text, cursor offset, and the
undo/redo stacks of the Edit Action Log. -/
structure Content where
  text : List Char
  cursor : Nat
  history : List EditOp
  redo : List EditOp
  deriving DecidableEq, Repr

/-- `Content::with_text`: a fresh buffer holding `t`, cursor collapsed at
document start, empty history. -/
def Content.with_text (t : List Char) : Content :=
  ⟨t, 0, [], []⟩

/-- `Content::new`: the empty document. -/
def Content.new : Content :=
  Content.with_text []

/-- The cursor offset clamped into the document (every operation clamps to
buffer bounds, design document 4.3). -/
def Content.pos (c : Content) : Nat :=
  min c.cursor c.text.length

/-- Apply one cursor motion, clamping to buffer bounds. -/
def applyMotion (m : Motion) (c : Content) : Nat :=
  match m with
  | .left => c.pos - 1
  | .right => min (c.pos + 1) c.text.length
  | .docStart => 0
  | .docEnd => c.text.length

/-- Modelled from the spec (design document 4.2, 4.4, 4.5): perform one
content-mutating command at the (clamped) cursor, recording on the undo
stack the exact operation performed — removed text cached for deletions —
and clearing the redo stack. A backspace at document start and a forward
delete at document end mutate nothing and record nothing. -/
def Content.performEdit (c : Content) : EditCmd → Content
  | .insert ch =>
      ⟨insertAt c.pos [ch] c.text, c.pos + 1, .ins c.pos [ch] :: c.history, []⟩
  | .paste t =>
      ⟨insertAt c.pos t c.text, c.pos + t.length, .ins c.pos t :: c.history, []⟩
  | .enter =>
      ⟨insertAt c.pos ['\n'] c.text, c.pos + 1, .ins c.pos ['\n'] :: c.history, []⟩
  | .backspace =>
      if c.pos = 0 then c
      else
        ⟨deleteRange (c.pos - 1) c.pos c.text, c.pos - 1,
         .del (c.pos - 1) (sliceRange (c.pos - 1) c.pos c.text) :: c.history, []⟩
  | .delete =>
      if c.text.length ≤ c.pos then c
      else
        ⟨deleteRange c.pos (c.pos + 1) c.text, c.pos,
         .del c.pos (sliceRange c.pos (c.pos + 1) c.text) :: c.history, []⟩

/-- `Content::perform`: apply one widget action — motions move the cursor,
edits mutate the text through `performEdit`. -/
def Content.perform (c : Content) : Action → Content
  | .move m => { c with cursor := applyMotion m c }
  | .select m => { c with cursor := applyMotion m c }
  | .edit e => c.performEdit e

/-- Apply a sequence of widget actions in order. -/
def Content.performAll (c : Content) (acts : List Action) : Content :=
  acts.foldl Content.perform c

/-- Modelled from the spec (design document 4.4): undo pops the most
recent op, applies its inverse to the text, repositions the cursor at the
edit site and moves the op to the redo stack; on an empty undo stack it is
a no-op. -/
def Content.undo (c : Content) : Content :=
  match c.history with
  | [] => c
  | .ins p t :: rest => ⟨deleteRange p (p + t.length) c.text, p, rest, .ins p t :: c.redo⟩
  | .del p t :: rest => ⟨insertAt p t c.text, p + t.length, rest, .del p t :: c.redo⟩

/-- Iterate `undo` `n` times. -/
def undoN : Nat → Content → Content
  | 0, c => c
  | n + 1, c => undoN n c.undo

/-- Invoke `undo` repeatedly until the undo stack is empty. -/
def Content.undoAll (c : Content) : Content :=
  undoN c.history.length c

/-- The composite effect of undoing a whole stack of recorded edits over a
text, most recent first. -/
def rollback : List EditOp → List Char → List Char
  | [], s => s
  | op :: rest, s => rollback rest (op.invert s)

/-- Character offset to zero-indexed (line, column), counting characters
since the last line boundary (design document section 3, `Position`). -/
def lineColOf (t : List Char) (p : Nat) : Nat × Nat :=
  let pre := t.take p
  (pre.count '\n', (pre.reverse.takeWhile (fun ch => ch ≠ '\n')).length)

/-- `Content::cursor_position`: the cursor as a zero-indexed
(line, column) pair. -/
def Content.cursor_position (c : Content) : Nat × Nat :=
  lineColOf c.text c.pos

/-! ## The application shell: errors, messages, commands -/

/-- Model of `std::io::ErrorKind` as carried by `Error::IoFailed`; the
editor never inspects it, so a few representative kinds suffice for
concrete instances. -/
inductive IoErrorKind where
  | notFound
  | permissionDenied
  | interrupted
  | other
  deriving DecidableEq, Repr

/-- The `Error` enum of main.rs: a closed file dialog, or an I/O error
kind propagated from the filesystem. -/
inductive Error where
  | dialogClosed
  | ioFailed (kind : IoErrorKind)
  deriving DecidableEq, Repr

/-- Display of an I/O error kind in the status bar (model of
`io::ErrorKind`'s Display strings). -/
def IoErrorKind.display : IoErrorKind → String
  | .notFound => "entity not found"
  | .permissionDenied => "permission denied"
  | .interrupted => "operation interrupted"
  | .other => "other error"

/-- Model of iced's `highlighter::Theme` (the variants used concretely in
this development). -/
inductive HighlighterTheme where
  | solarizedDark
  | inspiredGitHub
  | base16Mocha
  deriving DecidableEq, Repr

/-- `highlighter::Theme::is_dark`, modelled from iced: SolarizedDark and
the Base16 themes are dark, InspiredGitHub is light. -/
def HighlighterTheme.is_dark : HighlighterTheme → Bool
  | .inspiredGitHub => false
  | _ => true

/-- `iced::Theme` as selected by `Editor::theme`. -/
inductive AppTheme where
  | dark
  | light
  deriving DecidableEq, Repr

/-- The `Message` enum of main.rs (`Open` is rendered `openFile` because
`open` is reserved in Lean). -/
inductive Message where
  | new
  | edit (a : Action)
  | openFile
  | fileOpened (r : Except Error (Path × List Char))
  | save
  | fileSaved (r : Except Error Path)
  | themeSelected (t : HighlighterTheme)
  deriving Repr

/-- The commands `Editor::update` hands back to the iced runtime: nothing,
the pick-then-load flow of `Message::Open`, the save flow of
`Message::Save`, or the startup load of the default file. -/
inductive Command where
  | none
  | pickFile
  | saveFile (path : Option Path) (text : List Char)
  | loadFile (path : Path)
  deriving Repr

/-! ## The Editor state machine -/

/-- The `Editor` state struct of main.rs. -/
structure Editor where
  path : Option Path
  content : Content
  error : Option Error
  theme : HighlighterTheme
  is_dirty : Bool
  deriving DecidableEq, Repr

/-- `default_file()`: the crate's own main source file. -/
def default_file : Path :=
  "iceditor/src/main.rs"

/-- `Editor::new`: empty unsaved document, no error, SolarizedDark theme,
dirty flag set, plus the startup command loading the default file. -/
def Editor.new : Editor × Command :=
  (⟨none, Content.new, none, .solarizedDark, true⟩, .loadFile default_file)

/-- `Editor::update`: the message handler, arm for arm. -/
def Editor.update (e : Editor) : Message → Editor × Command
  | .new =>
      ({ e with path := none, content := Content.new, is_dirty := true }, .none)
  | .edit a =>
      ({ e with is_dirty := e.is_dirty || a.is_edit, error := none,
                content := e.content.perform a }, .none)
  | .openFile => (e, .pickFile)
  | .fileOpened (.ok (path, content)) =>
      ({ e with path := some path, content := Content.with_text content,
                is_dirty := false }, .none)
  | .fileOpened (.error err) => ({ e with error := some err }, .none)
  | .save => (e, .saveFile e.path e.content.text)
  | .fileSaved (.ok path) =>
      ({ e with path := some path, is_dirty := false }, .none)
  | .fileSaved (.error err) => ({ e with error := some err }, .none)
  | .themeSelected t => ({ e with theme := t }, .none)

/-- A keyboard key, as matched by the subscription. -/
inductive Key where
  | character (s : String)
  | named (n : String)
  deriving DecidableEq, Repr

/-- Keyboard modifiers; only the command modifier is consulted. -/
structure Modifiers where
  command : Bool
  shift : Bool
  deriving DecidableEq, Repr

/-- `Editor::subscription`: maps Cmd+S to `Message::Save` and every other
key press to nothing; it reads no field of the editor state. -/
def Editor.subscription (_ : Editor) (key : Key) (mods : Modifiers) : Option Message :=
  match key with
  | .character s => if s = "s" && mods.command then some .save else none
  | _ => none

/-! ## The view -/

/-- Modelled from std's `Path::extension`: the part of the file name after
its last dot, if any. -/
def pathExtension (p : Path) : Option String :=
  let fileName := (p.toList.reverse.takeWhile (fun ch => ch ≠ '/')).reverse
  let afterDot := fileName.reverse.takeWhile (fun ch => ch ≠ '.')
  if afterDot.length = fileName.length then none
  else some ⟨afterDot.reverse⟩

/-- What one toolbar button renders and can emit (from `action_button`). -/
structure ButtonView where
  label : String
  onPress : Option Message
  disabled : Bool
  primaryStyle : Bool
  deriving Repr

/-- `action_button`: a button is disabled exactly when it carries no
message, and styled Secondary when disabled, Primary otherwise; a disabled
button can emit nothing. -/
def action_button (label : String) (onPressMaybe : Option Message) : ButtonView :=
  ⟨label, onPressMaybe, onPressMaybe.isNone, !onPressMaybe.isNone⟩

/-- The data `Editor::view` places in the widget tree: the three toolbar
buttons, the theme-picker selection, the highlight settings handed to the
text-editor widget, and the status bar. -/
structure ViewModel where
  newButton : ButtonView
  openButton : ButtonView
  saveButton : ButtonView
  pickedTheme : HighlighterTheme
  highlightExtension : String
  statusText : String
  positionText : String
  deriving Repr

/-- `Editor::view`: renders the editor state. A `&self` method, embedded
as a state transformer returning the rendered data together with the
state it ran on, which the source cannot and does not mutate. -/
def Editor.view (e : Editor) : ViewModel × Editor :=
  let status :=
    match e.error with
    | some (.ioFailed k) => k.display
    | _ =>
        match e.path with
        | some p => p
        | none => "New file"
  let pos := e.content.cursor_position
  (⟨action_button "New file" (some .new),
    action_button "Open file" (some .openFile),
    action_button "Save file" (if e.is_dirty then some .save else none),
    e.theme,
    (e.path.bind pathExtension).getD "rs",
    status,
    toString (pos.1 + 1) ++ ":" ++ toString (pos.2 + 1)⟩, e)

/-- `Editor::title`: constant window title; `&self`, state untouched. -/
def Editor.title (e : Editor) : String × Editor :=
  ("A cool editor!", e)

/-- `Editor::theme` (rendered `appTheme` since the state field is already
called `theme`): dark window chrome exactly for dark highlighter themes;
`&self`, state untouched. -/
def Editor.appTheme (e : Editor) : AppTheme × Editor :=
  ((if e.theme.is_dark then .dark else .light), e)

/-! ## The async filesystem collaborators -/

/-- `load_file`: read the file at `path` through the external filesystem
(the read outcome is supplied as an oracle), pairing the path with the
full text on success and wrapping the error kind unchanged on failure. -/
def load_file (fsRead : Path → Except IoErrorKind (List Char)) (path : Path) :
    Except Error (Path × List Char) :=
  match fsRead path with
  | .ok content => .ok (path, content)
  | .error k => .error (.ioFailed k)

/-- `pick_file`: the async open dialog (its outcome supplied as an
oracle); a closed dialog yields `DialogClosed`, otherwise the chosen file
is loaded. -/
def pick_file (dialog : Option Path) (fsRead : Path → Except IoErrorKind (List Char)) :
    Except Error (Path × List Char) :=
  match dialog with
  | none => .error .dialogClosed
  | some p => load_file fsRead p

/-- `save_file`: resolve the target path (the session path, or else the
save dialog's choice), then hand the text to the external file writer.
Returns the message result paired with the write request actually issued
(path and exact bytes), `none` when no write happened. -/
def save_file (dialog : Option Path) (fsWrite : Path → List Char → Option IoErrorKind)
    (path : Option Path) (text : List Char) :
    Except Error Path × Option (Path × List Char) :=
  match path.orElse (fun _ => dialog) with
  | none => (.error .dialogClosed, none)
  | some p =>
      match fsWrite p text with
      | some k => (.error (.ioFailed k), some (p, text))
      | none => (.ok p, some (p, text))

/-! ## Inversion of recorded edits -/

theorem length_take_of_le {s : List Char} {p : Nat} (hp : p ≤ s.length) :
    (s.take p).length = p := by
  simp [List.length_take, Nat.min_eq_left hp]

/-- Deleting the just-inserted range undoes an insertion. -/
theorem deleteRange_insertAt (p : Nat) (t s : List Char) (hp : p ≤ s.length) :
    deleteRange p (p + t.length) (insertAt p t s) = s := by
  have hA : (s.take p).length = p := length_take_of_le hp
  have hAB : (s.take p ++ t).length = p + t.length := by simp [hA]
  unfold deleteRange insertAt
  rw [List.drop_left' hAB, List.append_assoc, List.take_left' hA,
    List.take_append_drop]

/-- Re-inserting the cached removed text undoes a deletion. -/
theorem insertAt_deleteRange (p q : Nat) (s : List Char) (hpq : p ≤ q)
    (hq : q ≤ s.length) :
    insertAt p (sliceRange p q s) (deleteRange p q s) = s := by
  have hp : p ≤ s.length := le_trans hpq hq
  have hA : (s.take p).length = p := length_take_of_le hp
  have hdd : s.drop q = (s.drop p).drop (q - p) := by
    rw [List.drop_drop, Nat.add_sub_cancel' hpq]
  unfold insertAt deleteRange sliceRange
  rw [List.take_left' hA, List.drop_left' hA, hdd, List.append_assoc,
    List.take_append_drop, List.take_append_drop]

/-- Performing any single widget action preserves the text that undoing
the whole history yields: motions touch neither text nor history, and each
content edit pushes an op whose inverse exactly cancels it. -/
theorem rollback_perform (c : Content) (a : Action) :
    rollback (c.perform a).history (c.perform a).text
      = rollback c.history c.text := by
  have hpos : c.pos ≤ c.text.length := Nat.min_le_right _ _
  cases a with
  | move m => rfl
  | select m => rfl
  | edit cmd =>
      cases cmd with
      | insert ch =>
          simp only [Content.perform, Content.performEdit, rollback, EditOp.invert]
          rw [deleteRange_insertAt _ _ _ hpos]
      | paste t =>
          simp only [Content.perform, Content.performEdit, rollback, EditOp.invert]
          rw [deleteRange_insertAt _ _ _ hpos]
      | enter =>
          simp only [Content.perform, Content.performEdit, rollback, EditOp.invert]
          rw [deleteRange_insertAt _ _ _ hpos]
      | backspace =>
          by_cases h : c.pos = 0
          · simp [Content.perform, Content.performEdit, h]
          · simp only [Content.perform, Content.performEdit, if_neg h, rollback,
              EditOp.invert]
            rw [insertAt_deleteRange _ _ _ (Nat.sub_le _ _) hpos]
      | delete =>
          by_cases h : c.text.length ≤ c.pos
          · simp [Content.perform, Content.performEdit, h]
          · simp only [Content.perform, Content.performEdit, if_neg h, rollback,
              EditOp.invert]
            rw [insertAt_deleteRange _ _ _ (Nat.le_succ _)
              (Nat.succ_le_of_lt (Nat.lt_of_not_le h))]

/-- Undoing as many times as the stack is deep realises the rollback of
the whole stack, whatever the cursor and redo stack hold. -/
theorem undoN_text (h : List EditOp) :
    ∀ (t : List Char) (cur : Nat) (r : List EditOp),
      (undoN h.length ⟨t, cur, h, r⟩).text = rollback h t := by
  induction h with
  | nil => intro t cur r; rfl
  | cons op rest ih =>
      intro t cur r
      cases op with
      | ins p u =>
          simp only [List.length_cons, undoN, Content.undo, rollback, EditOp.invert]
          exact ih _ _ _
      | del p u =>
          simp only [List.length_cons, undoN, Content.undo, rollback, EditOp.invert]
          exact ih _ _ _

/-- `undoAll` computes the rollback of the recorded history. -/
theorem undoAll_text (c : Content) :
    c.undoAll.text = rollback c.history c.text := by
  unfold Content.undoAll
  cases c
  exact undoN_text _ _ _ _

/-- Rollback is invariant under performing any action sequence. -/
theorem rollback_performAll (acts : List Action) :
    ∀ c : Content,
      rollback (c.performAll acts).history (c.performAll acts).text
        = rollback c.history c.text := by
  induction acts with
  | nil => intro c; rfl
  | cons a rest ih =>
      intro c
      have hstep : c.performAll (a :: rest) = (c.perform a).performAll rest := rfl
      rw [hstep, ih, rollback_perform]

/-- Claim C7: for every sequence of widget actions (inserts, deletes,
pastes, newlines, motions, selections) applied after a `load` — and hence
also after session creation, which starts from the empty loaded text —
invoking `undo` repeatedly until the undo stack is empty restores the
buffer text to the loaded text, character for character. -/
theorem undo_restores_baseline (t : List Char) (acts : List Action) :
    (((Content.with_text t).performAll acts).undoAll).text = t := by
  rw [undoAll_text, rollback_performAll]
  rfl

/-! ## The dirty flag -/

/-- Claim C1 (amended): the dirty-flag discipline of the editor. The flag
is a conservative modified marker rather than an exact comparison with the
persisted text: a successful open clears it, a successful save clears it,
an Edit action raises it exactly when `is_edit` holds and keeps it
otherwise, a failed or cancelled open or save leaves it unchanged, and
both `Editor::new` and `Message::New` start the fresh, never-persisted
document with the flag set. -/
theorem dirty_flag_discipline :
    Editor.new.1.is_dirty = true ∧
    (∀ e : Editor, (e.update .new).1.is_dirty = true) ∧
    (∀ (e : Editor) (p : Path) (t : List Char),
      (e.update (.fileOpened (.ok (p, t)))).1.is_dirty = false) ∧
    (∀ (e : Editor) (p : Path),
      (e.update (.fileSaved (.ok p))).1.is_dirty = false) ∧
    (∀ (e : Editor) (a : Action),
      (e.update (.edit a)).1.is_dirty = (e.is_dirty || a.is_edit)) ∧
    (∀ (e : Editor) (err : Error),
      (e.update (.fileOpened (.error err))).1.is_dirty = e.is_dirty ∧
      (e.update (.fileSaved (.error err))).1.is_dirty = e.is_dirty) :=
  ⟨rfl, fun _ => rfl, fun _ _ _ => rfl, fun _ _ => rfl, fun _ _ => rfl,
   fun _ _ => ⟨rfl, rfl⟩⟩

/-- Claim C1, counterexample to the stated "true iff the buffer differs
from the last externally-persisted snapshot": after the session's only
persistence event — a successful load of the text "a" — a backspace at
document start is an Edit action with `is_edit` true that leaves the text
unchanged, so the dirty flag rises although the buffer still equals the
last persisted text. -/
theorem dirty_iff_snapshot_counterexample :
    let loaded := (Editor.new.1.update (.fileOpened (.ok ("a.txt", ['a'])))).1
    let edited := (loaded.update (.edit (.edit .backspace))).1
    loaded.is_dirty = false ∧ loaded.content.text = ['a'] ∧
    edited.content.text = ['a'] ∧ edited.is_dirty = true := by
  decide

/-! ## Cancelled dialogs -/

/-- Claim C2, counterexample to "every other field of the Editor state is
left exactly as it was": a cancelled open dialog reaching `update` as
`FileOpened(Err(DialogClosed))` does change the state — it overwrites the
error field, here from `none` to `some DialogClosed`. -/
theorem cancelled_dialog_counterexample :
    (Editor.new.1.update (.fileOpened (.error .dialogClosed))).1 ≠ Editor.new.1 ∧
    (Editor.new.1.update (.fileOpened (.error .dialogClosed))).1.error
      = some .dialogClosed ∧
    Editor.new.1.error = none := by
  decide

/-- Claim C2 (amended): a cancelled picker dialog arrives as FileOpened or
FileSaved carrying `DialogClosed`; `update` leaves path, content, dirty
flag and theme exactly as they were, issues no command, and only writes
`DialogClosed` into the error field — which the view never renders: the
status bar shows exactly what it shows in an error-free state (the path,
or "New file"), so the interaction is a visible no-op. -/
theorem cancelled_dialog_silent (e : Editor) :
    (let r := e.update (.fileOpened (.error .dialogClosed))
     r.1.path = e.path ∧ r.1.content = e.content ∧ r.1.is_dirty = e.is_dirty ∧
     r.1.theme = e.theme ∧ r.1.error = some .dialogClosed ∧ r.2 = .none ∧
     (r.1.view).1.statusText = (({ e with error := none }).view).1.statusText) ∧
    (let r := e.update (.fileSaved (.error .dialogClosed))
     r.1.path = e.path ∧ r.1.content = e.content ∧ r.1.is_dirty = e.is_dirty ∧
     r.1.theme = e.theme ∧ r.1.error = some .dialogClosed ∧ r.2 = .none ∧
     (r.1.view).1.statusText = (({ e with error := none }).view).1.statusText) ∧
    pick_file none (fun _ => .ok []) = .error .dialogClosed ∧
    (save_file none (fun _ _ => none) none ['x']).1 = .error .dialogClosed ∧
    (save_file none (fun _ _ => none) none ['x']).2 = none :=
  ⟨⟨rfl, rfl, rfl, rfl, rfl, rfl, rfl⟩,
   ⟨rfl, rfl, rfl, rfl, rfl, rfl, rfl⟩, rfl, rfl, rfl⟩

/-! ## Opening a file -/

/-- Claim C3: a successful open resets the session to the new document:
the loader pairs the read text with the path it was read from, and update
stores that path, replaces the content wholesale with a fresh buffer whose
cursor sits at document start and whose history is empty, and clears the
dirty flag. -/
theorem open_resets_state (e : Editor) (p : Path) (t : List Char)
    (fsRead : Path → Except IoErrorKind (List Char)) (hread : fsRead p = .ok t) :
    load_file fsRead p = .ok (p, t) ∧
    e.update (.fileOpened (.ok (p, t)))
      = ({ e with path := some p, content := Content.with_text t,
                  is_dirty := false }, .none) ∧
    (Content.with_text t).text = t ∧
    (Content.with_text t).cursor = 0 ∧
    (Content.with_text t).history = [] ∧
    (Content.with_text t).redo = [] := by
  refine ⟨?_, rfl, rfl, rfl, rfl, rfl⟩
  unfold load_file
  rw [hread]

/-- Claim C3, witness at a concrete successful read. -/
theorem open_resets_state_witness :
    load_file (fun _ => .ok ['h', 'i']) "a.txt" = .ok ("a.txt", ['h', 'i']) ∧
    Editor.new.1.update (.fileOpened (.ok ("a.txt", ['h', 'i'])))
      = ({ Editor.new.1 with
            path := some "a.txt",
            content := Content.with_text ['h', 'i'],
            is_dirty := false }, .none) ∧
    (Content.with_text ['h', 'i']).text = ['h', 'i'] ∧
    (Content.with_text ['h', 'i']).cursor = 0 ∧
    (Content.with_text ['h', 'i']).history = [] ∧
    (Content.with_text ['h', 'i']).redo = [] :=
  open_resets_state Editor.new.1 "a.txt" ['h', 'i'] (fun _ => .ok ['h', 'i']) rfl

/-! ## Saving a file -/

/-- Claim C4: a successful save records the path the file was actually
written to — in particular a save-as resolves the dialog's choice and
reports that path back — and clears the dirty flag, leaving content, error
and theme untouched. -/
theorem save_success_updates_path (e : Editor) (p : Path)
    (fsWrite : Path → List Char → Option IoErrorKind) (text : List Char)
    (hw : fsWrite p text = none) :
    e.update (.fileSaved (.ok p))
      = ({ e with path := some p, is_dirty := false }, .none) ∧
    (e.update (.fileSaved (.ok p))).1.content = e.content ∧
    (e.update (.fileSaved (.ok p))).1.error = e.error ∧
    (e.update (.fileSaved (.ok p))).1.theme = e.theme ∧
    save_file none fsWrite (some p) text = (.ok p, some (p, text)) ∧
    save_file (some p) fsWrite none text = (.ok p, some (p, text)) := by
  refine ⟨rfl, rfl, rfl, rfl, ?_, ?_⟩ <;>
    simp [save_file, Option.orElse, hw]

/-- Claim C4, witness at a concrete successful write. -/
theorem save_success_updates_path_witness :
    Editor.new.1.update (.fileSaved (.ok "out.txt"))
      = ({ Editor.new.1 with path := some "out.txt", is_dirty := false }, .none) ∧
    (Editor.new.1.update (.fileSaved (.ok "out.txt"))).1.content
      = Editor.new.1.content ∧
    (Editor.new.1.update (.fileSaved (.ok "out.txt"))).1.error
      = Editor.new.1.error ∧
    (Editor.new.1.update (.fileSaved (.ok "out.txt"))).1.theme
      = Editor.new.1.theme ∧
    save_file none (fun _ _ => none) (some "out.txt") ['x']
      = (.ok "out.txt", some ("out.txt", ['x'])) ∧
    save_file (some "out.txt") (fun _ _ => none) none ['x']
      = (.ok "out.txt", some ("out.txt", ['x'])) :=
  save_success_updates_path Editor.new.1 "out.txt" (fun _ _ => none) ['x'] rfl

/-- Claim C5: every I/O failure is propagated unchanged: the loader and
saver wrap the filesystem's error kind as IoFailed without altering it,
and update stores exactly the received error — parametrically in the
error, so it can take no branch on its kind. -/
theorem io_error_propagated (e : Editor) (err : Error) (k : IoErrorKind)
    (fsRead : Path → Except IoErrorKind (List Char)) (p : Path)
    (hr : fsRead p = .error k)
    (fsWrite : Path → List Char → Option IoErrorKind) (text : List Char)
    (hw : fsWrite p text = some k) :
    e.update (.fileOpened (.error err)) = ({ e with error := some err }, .none) ∧
    e.update (.fileSaved (.error err)) = ({ e with error := some err }, .none) ∧
    load_file fsRead p = .error (.ioFailed k) ∧
    (save_file none fsWrite (some p) text).1 = .error (.ioFailed k) := by
  refine ⟨rfl, rfl, ?_, ?_⟩
  · unfold load_file
    rw [hr]
  · simp [save_file, Option.orElse, hw]

/-- Claim C5, witness at a concrete failing read and write. -/
theorem io_error_propagated_witness :
    Editor.new.1.update (.fileOpened (.error (.ioFailed .notFound)))
      = ({ Editor.new.1 with error := some (.ioFailed .notFound) }, .none) ∧
    Editor.new.1.update (.fileSaved (.error (.ioFailed .notFound)))
      = ({ Editor.new.1 with error := some (.ioFailed .notFound) }, .none) ∧
    load_file (fun _ => .error .notFound) "a.txt" = .error (.ioFailed .notFound) ∧
    (save_file none (fun _ _ => some .notFound) (some "a.txt") ['x']).1
      = .error (.ioFailed .notFound) :=
  io_error_propagated Editor.new.1 (.ioFailed .notFound) .notFound
    (fun _ => .error .notFound) "a.txt" rfl (fun _ _ => some .notFound) ['x'] rfl

/-- Claim C6: handling Save captures the buffer text at that moment and
passes it to the saver verbatim; whenever the saver issues a write request
at all, the bytes of that request are exactly the captured text, with
nothing added. -/
theorem save_writes_exact_text (e : Editor)
    (dialog : Option Path) (fsWrite : Path → List Char → Option IoErrorKind)
    (path : Option Path) (text : List Char) (req : Path × List Char)
    (hreq : (save_file dialog fsWrite path text).2 = some req) :
    e.update .save = (e, .saveFile e.path e.content.text) ∧ req.2 = text := by
  refine ⟨rfl, ?_⟩
  unfold save_file at hreq
  split at hreq
  · simp at hreq
  · split at hreq
    · simp only [Option.some.injEq] at hreq
      rw [← hreq]
    · simp only [Option.some.injEq] at hreq
      rw [← hreq]

/-- Claim C6, witness at a concrete issued write. -/
theorem save_writes_exact_text_witness :
    Editor.new.1.update .save
      = (Editor.new.1, .saveFile Editor.new.1.path Editor.new.1.content.text) ∧
    (("out.txt", ['x']) : Path × List Char).2 = ['x'] :=
  save_writes_exact_text Editor.new.1 none (fun _ _ => none) (some "out.txt")
    ['x'] ("out.txt", ['x']) rfl

/-! ## The view and the subscription -/

/-- Claim C8: reading the observable state is side-effect free: view,
title and theme are `&self` methods, embedded as state transformers, and
each hands back path, content, error, theme and dirty flag exactly as it
received them. -/
theorem view_state_readonly (e : Editor) :
    (e.view).2.path = e.path ∧ (e.view).2.content = e.content ∧
    (e.view).2.error = e.error ∧ (e.view).2.theme = e.theme ∧
    (e.view).2.is_dirty = e.is_dirty ∧
    (e.title).2 = e ∧ (e.appTheme).2 = e :=
  ⟨rfl, rfl, rfl, rfl, rfl, rfl, rfl⟩

/-- Claim C9: every Edit message — pure cursor motions and selections
included — unconditionally clears the stored error, so the status bar of
the resulting state shows the path (or "New file"), never an error. -/
theorem edit_clears_error (e : Editor) (a : Action) :
    (e.update (.edit a)).1.error = none ∧
    ((e.update (.edit a)).1.view).1.statusText = e.path.getD "New file" := by
  rcases e with ⟨path, content, err, theme, d⟩
  refine ⟨rfl, ?_⟩
  cases path <;> rfl

/-- Claim C10: on a clean buffer the Save toolbar button carries no
message and is disabled, so pressing it cannot emit Save, while the
keyboard subscription — which reads no field of the state — still maps
Cmd+S to Save. -/
theorem save_button_vs_keyboard (e e' : Editor) (h : e.is_dirty = false)
    (mods : Modifiers) (hm : mods.command = true) :
    (e.view).1.saveButton.onPress = none ∧
    (e.view).1.saveButton.disabled = true ∧
    e.subscription (.character "s") mods = some .save ∧
    (∀ (k : Key) (m : Modifiers), e.subscription k m = e'.subscription k m) := by
  refine ⟨?_, ?_, ?_, fun k m => rfl⟩
  · simp [Editor.view, action_button, h]
  · simp [Editor.view, action_button, h]
  · simp [Editor.subscription, hm]

/-- Claim C10, witness on a concrete clean state and the concrete Cmd+S
key press. -/
theorem save_button_vs_keyboard_witness :
    (({ Editor.new.1 with is_dirty := false }).view).1.saveButton.onPress = none ∧
    (({ Editor.new.1 with is_dirty := false }).view).1.saveButton.disabled = true ∧
    ({ Editor.new.1 with is_dirty := false }).subscription (.character "s")
      ⟨true, false⟩ = some .save ∧
    ({ Editor.new.1 with is_dirty := false }).subscription (.named "Enter")
      ⟨true, false⟩ = Editor.new.1.subscription (.named "Enter") ⟨true, false⟩ :=
  ⟨(save_button_vs_keyboard { Editor.new.1 with is_dirty := false } Editor.new.1
      rfl ⟨true, false⟩ rfl).1,
   (save_button_vs_keyboard { Editor.new.1 with is_dirty := false } Editor.new.1
      rfl ⟨true, false⟩ rfl).2.1,
   (save_button_vs_keyboard { Editor.new.1 with is_dirty := false } Editor.new.1
      rfl ⟨true, false⟩ rfl).2.2.1,
   (save_button_vs_keyboard { Editor.new.1 with is_dirty := false } Editor.new.1
      rfl ⟨true, false⟩ rfl).2.2.2 (.named "Enter") ⟨true, false⟩⟩

end Iceditor
